import Mathlib

/-!
A shallow embedding of libpsample (src/psample.c) in Lean 4, together with
proofs of the behavioural claims about its attribute decoder, dispatch
engine, group-filter compiler, group enumeration and capture bridge.

Modelling conventions:
* machine integers are `Nat`/`Int` with explicit reductions modulo 2^32
  where the C code relies on 32-bit wraparound;
* buffers are `List Nat` of byte values;
* C functions that read ambient state (the receive queue, `errno`,
  allocation success, `setsockopt` results) take that state as explicit
  parameters;
* a read of an uninitialized variable is modelled by `Option` (`none`
  means the memory was never written), and a dereference of a null
  pointer is modelled by an explicit crash outcome, since both are
  undefined behaviour in C.
The host is modelled as little-endian, so `ntohl`/`htonl` are both the
32-bit byte swap.
-/

namespace Psample

/-! ### Constants from linux/psample.h, errno.h and libmnl -/

def PSAMPLE_ATTR_IIFINDEX : Nat := 0
def PSAMPLE_ATTR_OIFINDEX : Nat := 1
def PSAMPLE_ATTR_ORIGSIZE : Nat := 2
def PSAMPLE_ATTR_SAMPLE_GROUP : Nat := 3
def PSAMPLE_ATTR_GROUP_SEQ : Nat := 4
def PSAMPLE_ATTR_SAMPLE_RATE : Nat := 5
def PSAMPLE_ATTR_DATA : Nat := 6
def PSAMPLE_ATTR_GROUP_REFCOUNT : Nat := 7

/-- `PSAMPLE_ATTR_MAX` from linux/psample.h (the last enumerator is
`PSAMPLE_ATTR_PROTO = 14`). -/
def PSAMPLE_ATTR_MAX : Nat := 14

def PSAMPLE_CMD_SAMPLE : Nat := 0
def PSAMPLE_CMD_GET_GROUP : Nat := 1

def EWOULDBLOCK : Nat := 11
def ENOMEM : Nat := 12
def EINVAL : Nat := 22

/-! ### Netlink attributes and the attribute table decoder -/

/-- One netlink attribute as libmnl presents it to a callback:
`typ` is `mnl_attr_get_type` (the wire type id with the flag bits already
masked off) and `payload` the attribute payload bytes
(`mnl_attr_get_payload` / `mnl_attr_get_payload_len`). -/
structure Nlattr where
  typ : Nat
  payload : List Nat
deriving DecidableEq, Repr

/-- The attribute table `struct nlattr *tb[PSAMPLE_ATTR_MAX + 1]`:
slot `i` holds the last attribute of type `i` stored by `attr_cb`,
`none` for the NULL pointers left by the `= {}` initializer. -/
abbrev AttrTable : Type := List (Option Nlattr)

/-- The zero-initialized attribute table of `psample_event_handler` and
`group_handle`. -/
def attrTableInit : AttrTable := List.replicate (PSAMPLE_ATTR_MAX + 1) none

/-- `attr_cb` (src/psample.c:348-382).  `none` models `MNL_CB_ERROR`;
`some tb'` models `MNL_CB_OK` after the store `tb[type] = attr`.
`mnl_attr_type_valid(attr, PSAMPLE_ATTR_MAX)` fails exactly when the type
id exceeds the bound, and `mnl_attr_validate(attr, MNL_TYPE_U16/U32)`
fails exactly when the payload length differs from 2/4 bytes (libmnl
checks fixed-size types for exact length). -/
def attr_cb (attr : Nlattr) (tb : AttrTable) : Option AttrTable :=
  if ¬ attr.typ ≤ PSAMPLE_ATTR_MAX then none
  else if attr.typ = PSAMPLE_ATTR_IIFINDEX ∧ ¬ attr.payload.length = 2 then none
  else if attr.typ = PSAMPLE_ATTR_OIFINDEX ∧ ¬ attr.payload.length = 2 then none
  else if attr.typ = PSAMPLE_ATTR_SAMPLE_RATE ∧ ¬ attr.payload.length = 4 then none
  else if attr.typ = PSAMPLE_ATTR_ORIGSIZE ∧ ¬ attr.payload.length = 4 then none
  else if attr.typ = PSAMPLE_ATTR_SAMPLE_GROUP ∧ ¬ attr.payload.length = 4 then none
  else if attr.typ = PSAMPLE_ATTR_GROUP_SEQ ∧ ¬ attr.payload.length = 4 then none
  else if attr.typ = PSAMPLE_ATTR_GROUP_REFCOUNT ∧ ¬ attr.payload.length = 4 then none
  else some (tb.set attr.typ (some attr))

/-- `mnl_attr_parse(nlhdr, sizeof(struct genlmsghdr), attr_cb, tb)`:
libmnl walks the attributes in order, calling `attr_cb` on each, and
aborts with `MNL_CB_ERROR` as soon as the callback returns it.  The
result is `(ok?, table)`; on abort the table is the partial table built
so far, exactly what the C caller sees in its `tb` array. -/
def mnl_attr_parse : List Nlattr → AttrTable → Bool × AttrTable
  | [], tb => (true, tb)
  | a :: rest, tb =>
    match attr_cb a tb with
    | none => (false, tb)
    | some tb2 => mnl_attr_parse rest tb2

/-! ### Messages, callbacks and the event handler -/

/-- A generic netlink message as seen by the per-message handlers: the
`genlmsghdr` command byte and the attribute stream after the header. -/
structure GenlMsg where
  cmd : Nat
  attrs : List Nlattr
deriving DecidableEq, Repr

/-- Return codes of libmnl per-message callbacks. -/
inductive MnlRet
  | ok
  | stop
  | error
deriving DecidableEq, Repr

/-- Observed callback invocations of the dispatch engine (ghost trace
used to state which callbacks ran and with what arguments). -/
inductive Invocation
  | msg (tb : AttrTable)
  | config (cmd : Nat) (tb : AttrTable)
deriving DecidableEq, Repr

/-- `psample_event_handler` (src/psample.c:392-423) on one message.
`msgCb`/`cfgCb` are `event_handler_data->msg_cb`/`config_cb` (`none` =
NULL).  The result is the `MNL_CB_*` return value, the value written to
`event_handler_data->cb_retval` (`none` when the `else return MNL_CB_OK`
branch leaves it untouched), and the callback invocations performed.
The return value of `mnl_attr_parse` is discarded, as in the source. -/
def psample_event_handler (msgCb : Option (AttrTable → Int))
    (cfgCb : Option (Nat → AttrTable → Int)) (m : GenlMsg) :
    MnlRet × Option Int × List Invocation :=
  let tb := (mnl_attr_parse m.attrs attrTableInit).2
  match (if m.cmd = PSAMPLE_CMD_SAMPLE then msgCb else none) with
  | some cb =>
    let ret := cb tb
    (if ret ≠ 0 then MnlRet.stop else MnlRet.ok, some ret, [Invocation.msg tb])
  | none =>
    match cfgCb with
    | some cb =>
      let ret := cb m.cmd tb
      (if ret ≠ 0 then MnlRet.stop else MnlRet.ok, some ret,
        [Invocation.config m.cmd tb])
    | none => (MnlRet.ok, none, [])

/-! ### The receive-and-run loop and psample_dispatch -/

/-- What the underlying receive yields once the queued batch is
exhausted: `ok` when the loop terminates benignly (end of a dump /
`MNL_CB_STOP`), `errno e` when `mnl_socket_recvfrom` fails with error
`e` (for an empty non-blocking queue, `e = EWOULDBLOCK`). -/
inductive TransportEnd
  | ok
  | errno (e : Nat)
deriving DecidableEq, Repr

/-- One step of the modelled receive loop: run the per-message handler,
threading a state `σ`, until a handler stops or errors out. -/
def recvRunGo {σ : Type} (handler : GenlMsg → σ → MnlRet × σ) :
    List GenlMsg → σ → MnlRet × σ
  | [], s => (MnlRet.ok, s)
  | m :: ms, s =>
    match handler m s with
    | (MnlRet.ok, s2) => recvRunGo handler ms s2
    | (MnlRet.stop, s2) => (MnlRet.stop, s2)
    | (MnlRet.error, s2) => (MnlRet.error, s2)

/-- Modelled from the spec: `mnlg_socket_recv_run` lives in mnlg.c, which
is not under src/; per the spec's transport contract (§1 OUT OF SCOPE,
§4.4, §4.5) it receives the queued messages and runs the per-message
handler over each in order, returning 0 once a handler stops the batch
or the batch ends benignly, and -1 with the failing `errno` when the
underlying receive fails.  `cbErrno` is the ambient `errno` value
observed if a handler aborts with `MNL_CB_ERROR` (no call in that path
sets `errno`).  Result: (return value, errno, final handler state). -/
def mnlg_socket_recv_run {σ : Type} (handler : GenlMsg → σ → MnlRet × σ)
    (batch : List GenlMsg) (endc : TransportEnd) (cbErrno : Nat) (s : σ) :
    Int × Nat × σ :=
  match recvRunGo handler batch s with
  | (MnlRet.stop, s2) => (0, 0, s2)
  | (MnlRet.error, s2) => (-1, cbErrno, s2)
  | (MnlRet.ok, s2) =>
    match endc with
    | TransportEnd.ok => (0, 0, s2)
    | TransportEnd.errno e => (-1, e, s2)

/-- State threaded through the event-handler loop: the
`event_handler_data.cb_retval` field (`none` while never written — the
field is not initialized by `psample_dispatch`) and the ghost trace of
callback invocations. -/
structure EvState where
  cb_retval : Option Int
  trace : List Invocation
deriving DecidableEq, Repr

/-- `psample_event_handler` as the state-threading callback handed to
`mnlg_socket_recv_run`: a write to `cb_retval` overwrites the field, the
trace accumulates invocations. -/
def evThread (msgCb : Option (AttrTable → Int))
    (cfgCb : Option (Nat → AttrTable → Int)) (m : GenlMsg) (s : EvState) :
    MnlRet × EvState :=
  match psample_event_handler msgCb cfgCb m with
  | (r, w, inv) =>
    (r, { cb_retval := match w with | some v => some v | none => s.cb_retval,
          trace := s.trace ++ inv })

/-- The filter program state of a handle (`struct sock_fprog`): the
instruction count and the owned instruction buffer (`none` = NULL). -/
structure SockFilterInstr where
  code : Nat
  jt : Nat
  jf : Nat
  k : Nat
deriving DecidableEq, Repr

structure SockFprog where
  len : Nat
  filter : Option (List SockFilterInstr)
deriving DecidableEq, Repr

/-- The fields of `struct psample_handle` the modelled operations touch.
The two transport connections are external collaborators and carry no
modelled state of their own. -/
structure PsampleHandle where
  sample_filter_fprog : SockFprog
deriving DecidableEq, Repr

/-- The outcome of `psample_dispatch`: either a defined return value, or
the undefined-behaviour read of the never-initialized
`event_handler_data.cb_retval` stack field. -/
inductive DispatchOutcome
  | ret (v : Int)
  | indeterminate
deriving DecidableEq, Repr

/-- `psample_dispatch` (src/psample.c:507-535).  `batch` is the queue of
messages the receive loop delivers during this call and `endc` what the
receive yields afterwards.  The result also carries the ghost trace of
callback invocations.  `event_handler_data.cb_retval` is never
initialized by the function; returning it while no callback has written
it is the `indeterminate` outcome. -/
def psample_dispatch (handle : Option PsampleHandle)
    (msgCb : Option (AttrTable → Int)) (cfgCb : Option (Nat → AttrTable → Int))
    (block : Bool) (batch : List GenlMsg) (endc : TransportEnd) :
    DispatchOutcome × List Invocation :=
  match handle with
  | none => (DispatchOutcome.ret (-(ENOMEM : Int)), [])
  | some _ =>
    let s0 : EvState := { cb_retval := none, trace := [] }
    match mnlg_socket_recv_run (evThread msgCb cfgCb) batch endc 0 s0 with
    | (err, errn, s) =>
      if err < 0 ∧ (errn ≠ EWOULDBLOCK ∨ block = true) then
        (DispatchOutcome.ret (-(errn : Int)), s.trace)
      else
        match s.cb_retval with
        | some v => (DispatchOutcome.ret v, s.trace)
        | none => (DispatchOutcome.indeterminate, s.trace)

/-! ### Group enumeration (psample_group_foreach) -/

/-- C pointer values in the group-enumeration path.  `user p` is an
opaque caller-supplied context pointer; `cbDataField` is the address of
the `cb_data` field of the stack-local `group_handler_data` struct of
`psample_group_foreach`.  In the C abstract machine that freshly live
stack object's field address is distinct from `NULL` and from every
pointer value the caller could have supplied, which the separate
constructors capture. -/
inductive CPtr
  | null
  | user (p : Nat)
  | cbDataField
deriving DecidableEq, Repr

/-- `mnl_attr_get_u32`: little-endian read of the first four payload
bytes (the host is modelled little-endian). -/
def mnl_attr_get_u32 (a : Nlattr) : Nat :=
  a.payload.getD 0 0 + 256 * a.payload.getD 1 0 +
    65536 * a.payload.getD 2 0 + 16777216 * a.payload.getD 3 0

/-- `struct psample_group` (psample.h). -/
structure PsampleGroup where
  num : Nat
  refcount : Nat
  seq : Nat
deriving DecidableEq, Repr

/-- `group_handle` (src/psample.c:580-604) on one message.  `cb_data` is
the value stored in `group_handler_data.cb_data`; note that the source
invokes the callback with `&group_handler_data->cb_data` — the address
of that field — so the invocation's second argument is
`CPtr.cbDataField`, not `cb_data`.  The result is the `MNL_CB_*` code,
the write to `cb_retval` and the callback invocations performed. -/
def group_handle (cb : PsampleGroup → CPtr → Int) (cb_data : CPtr)
    (m : GenlMsg) : MnlRet × Option Int × List (PsampleGroup × CPtr) :=
  let tb := (mnl_attr_parse m.attrs attrTableInit).2
  match tb.getD PSAMPLE_ATTR_SAMPLE_GROUP none,
        tb.getD PSAMPLE_ATTR_GROUP_REFCOUNT none,
        tb.getD PSAMPLE_ATTR_GROUP_SEQ none with
  | some ag, some ar, some as_ =>
    let group : PsampleGroup :=
      { num := mnl_attr_get_u32 ag, refcount := mnl_attr_get_u32 ar,
        seq := mnl_attr_get_u32 as_ }
    let ret := cb group CPtr.cbDataField
    (if ret ≠ 0 then MnlRet.stop else MnlRet.ok, some ret,
      [(group, CPtr.cbDataField)])
  | _, _, _ => (MnlRet.error, none, [])

/-- State threaded through the group-enumeration loop: the
`group_handler_data.cb_retval` field (never initialized by
`psample_group_foreach`) and the ghost trace of callback invocations. -/
structure GrState where
  cb_retval : Option Int
  trace : List (PsampleGroup × CPtr)
deriving DecidableEq, Repr

/-- `group_handle` as the state-threading callback handed to
`mnlg_socket_recv_run`. -/
def grThread (cb : PsampleGroup → CPtr → Int) (cb_data : CPtr)
    (m : GenlMsg) (s : GrState) : MnlRet × GrState :=
  match group_handle cb cb_data m with
  | (r, w, inv) =>
    (r, { cb_retval := match w with | some v => some v | none => s.cb_retval,
          trace := s.trace ++ inv })

/-- The outcome of `psample_group_foreach`: a defined return value, the
undefined read of the never-initialized `cb_retval`, or the crash of
dereferencing a NULL handle (the function has no null-handle check and
immediately uses `handle->control_nlh`). -/
inductive ForeachOutcome
  | ret (v : Int)
  | indeterminate
  | crash
deriving DecidableEq, Repr

/-- `psample_group_foreach` (src/psample.c:606-635).  `sendRes` is the
result of `mnlg_socket_send` for the dump request (`none` = success,
`some e` = failure with errno `e`); `batch` the group-descriptor
messages the dump delivers; `endc` what the receive yields afterwards;
`staleErrno` the ambient errno observed if a record fails to decode. -/
def psample_group_foreach (handle : Option PsampleHandle)
    (group_cb : PsampleGroup → CPtr → Int) (data : CPtr)
    (sendRes : Option Nat) (batch : List GenlMsg) (endc : TransportEnd)
    (staleErrno : Nat) : ForeachOutcome × List (PsampleGroup × CPtr) :=
  match handle with
  | none => (ForeachOutcome.crash, [])
  | some _ =>
    match sendRes with
    | some e => (ForeachOutcome.ret (-(e : Int)), [])
    | none =>
      let s0 : GrState := { cb_retval := none, trace := [] }
      match mnlg_socket_recv_run (grThread group_cb data) batch endc
          staleErrno s0 with
      | (err, errn, s) =>
        if err < 0 then (ForeachOutcome.ret (-(errn : Int)), s.trace)
        else
          match s.cb_retval with
          | some v => (ForeachOutcome.ret v, s.trace)
          | none => (ForeachOutcome.indeterminate, s.trace)

/-! ### The group filter compiler (psample_bind_group) -/

/-- 32-bit byte swap; on the little-endian host model both `ntohl` and
`htonl` are this function. -/
def byteswap32 (x : Nat) : Nat :=
  (x % 256) * 16777216 + (x / 256 % 256) * 65536 +
    (x / 65536 % 256) * 256 + (x / 16777216 % 256)

/-- `ntohl` applied to `(uint32_t)group`. -/
def ntohl (x : Nat) : Nat := byteswap32 (x % 4294967296)

/-- The fixed filter template `psample_group_filter`
(src/psample.c:425-443), instruction by instruction:
`BPF_LD|BPF_IMM` of the byte offset 20 past the two fixed headers,
`BPF_LDX|BPF_IMM` of `PSAMPLE_ATTR_SAMPLE_GROUP`,
`BPF_LD|BPF_ABS` of `SKF_AD_OFF + SKF_AD_NLATTR` (as u32: 0xfffff00c),
`BPF_JMP|BPF_JEQ|BPF_K` 0 → pass when the attribute is absent,
`BPF_MISC|BPF_TAX`, `BPF_LD|BPF_W|BPF_IND` 4 (the attribute payload),
the comparison to be patched (`FILTER_GROUP_COMMAND = 6`), drop, pass. -/
def psample_group_filter : List SockFilterInstr :=
  [ ⟨0x00, 0, 0, 20⟩,
    ⟨0x01, 0, 0, 3⟩,
    ⟨0x20, 0, 0, 4294963212⟩,
    ⟨0x15, 4, 0, 0⟩,
    ⟨0x07, 0, 0, 0⟩,
    ⟨0x40, 0, 0, 4⟩,
    ⟨0x15, 1, 0, 0x38000000⟩,
    ⟨0x06, 0, 0, 0⟩,
    ⟨0x06, 0, 0, 0xffffffff⟩ ]

def FILTER_GROUP_COMMAND : Nat := 6

/-- The environment `psample_bind_group` runs against: result of the
`SO_DETACH_FILTER` setsockopt (`none` = success, `some e` = failure with
errno `e`), whether `malloc` succeeds, and result of the
`SO_ATTACH_FILTER` setsockopt. -/
structure BindEnv where
  detachRes : Option Nat
  allocOk : Bool
  attachRes : Option Nat
deriving DecidableEq, Repr

/-- Observable heap/kernel events during `psample_bind_group`, used to
state the ordering of the free of the old filter buffer relative to the
install of the new one. -/
inductive BindEvent
  | detachedOldFilter
  | freedOldFilter
  | attachedNewFilter
deriving DecidableEq, Repr

/-- What `psample_bind_group` does: either returns a value, or crashes
with undefined behaviour (the `memcpy` into the unchecked result of
`malloc` when allocation failed). -/
inductive BindCtl
  | ret (v : Int)
  | crash
deriving DecidableEq, Repr

/-- The full result of a `psample_bind_group` run: control outcome,
resulting handle state (`none` when called with a NULL handle), the
kernel-side attached filter program, and the event log. -/
structure BindResult where
  ctl : BindCtl
  handle : Option PsampleHandle
  kernelFilter : Option (List SockFilterInstr)
  events : List BindEvent
deriving DecidableEq, Repr

/-- The tail of `psample_bind_group` from the `malloc` of the new filter
buffer onward (src/psample.c:471-484): the allocation result is *not*
checked, so an allocation failure falls into the `memcpy` through the
NULL buffer — modelled as `BindCtl.crash` (the handle then holds the
NULL pointer `malloc` returned).  On success the template is copied,
instruction `FILTER_GROUP_COMMAND` is patched to `ntohl(group)`, and the
program is attached; an attach failure returns `-errno` with the
unattached buffer left in the handle. -/
def bindInstallNew (h : PsampleHandle) (kernel : Option (List SockFilterInstr))
    (ev : List BindEvent) (group : Nat) (env : BindEnv) : BindResult :=
  if env.allocOk then
    let old6 := psample_group_filter.getD FILTER_GROUP_COMMAND ⟨0, 0, 0, 0⟩
    let newFilter :=
      psample_group_filter.set FILTER_GROUP_COMMAND
        ⟨old6.code, old6.jt, old6.jf, ntohl group⟩
    let h2 : PsampleHandle :=
      { sample_filter_fprog :=
          { len := psample_group_filter.length, filter := some newFilter } }
    match env.attachRes with
    | some e => ⟨BindCtl.ret (-(e : Int)), some h2, kernel, ev⟩
    | none =>
      ⟨BindCtl.ret 0, some h2, some newFilter,
        ev ++ [BindEvent.attachedNewFilter]⟩
  else
    ⟨BindCtl.crash,
      some { sample_filter_fprog := { h.sample_filter_fprog with filter := none } },
      kernel, ev⟩

/-- `psample_bind_group` (src/psample.c:445-485).  `kernel` is the
filter currently attached to the sample socket.  A NULL handle returns
`-EINVAL`; an installed filter is detached first (failure returns
`-errno` with nothing freed and the old program still attached), then —
immediately after the successful detach — its buffer is freed, before
`bindInstallNew` allocates and attaches the replacement. -/
def psample_bind_group (handle : Option PsampleHandle)
    (kernel : Option (List SockFilterInstr)) (group : Nat) (env : BindEnv) :
    BindResult :=
  match handle with
  | none => ⟨BindCtl.ret (-(EINVAL : Int)), none, kernel, []⟩
  | some h =>
    match h.sample_filter_fprog.filter with
    | some _ =>
      match env.detachRes with
      | some e => ⟨BindCtl.ret (-(e : Int)), some h, kernel, []⟩
      | none =>
        bindInstallNew
          { sample_filter_fprog := { h.sample_filter_fprog with filter := none } }
          none [BindEvent.detachedOldFilter, BindEvent.freedOldFilter] group env
    | none => bindInstallNew h kernel [] group env

/-! ### A classic-BPF evaluator for the installed group filter

The claim that the installed filter "matches G2 and never G1" is about
the kernel's evaluation of the socket-filter program on delivered
netlink datagrams, so the program is given a genuine small-step
semantics covering the opcodes the template uses, including the
kernel's `SKF_AD_NLATTR` ancillary load (attribute search). -/

/-- Big-endian 32-bit load from packet bytes, as classic BPF performs
it; `none` when the load runs past the packet (the kernel then rejects
the packet). -/
def be32At (pkt : List Nat) (off : Nat) : Option Nat :=
  match pkt.drop off with
  | b0 :: b1 :: b2 :: b3 :: _ => some (((b0 * 256 + b1) * 256 + b2) * 256 + b3)
  | _ => none

/-- Little-endian 16-bit read (netlink attribute headers are in host
byte order; the host is modelled little-endian). -/
def le16At (pkt : List Nat) (off : Nat) : Nat :=
  pkt.getD off 0 + 256 * pkt.getD (off + 1) 0

def NLA_ALIGN (n : Nat) : Nat := (n + 3) / 4 * 4

/-- The kernel's `nla_find` walk underlying `SKF_AD_NLATTR`: scan the
attributes from byte offset `off`, skipping by the aligned attribute
length, and return the offset of the first attribute whose (masked)
type equals `typ`, or 0 when none is found.  `fuel` bounds the walk. -/
def nla_find (pkt : List Nat) (typ : Nat) : Nat → Nat → Nat
  | 0, _ => 0
  | fuel + 1, off =>
    if off + 4 ≤ pkt.length then
      let len := le16At pkt off
      if 4 ≤ len ∧ off + len ≤ pkt.length then
        if le16At pkt (off + 2) % 16384 = typ then off
        else nla_find pkt typ fuel (off + NLA_ALIGN len)
      else 0
    else 0

/-- The `SKF_AD_NLATTR` ancillary load: A := offset of the attribute of
type X, searching from offset A; 0 when absent or A is out of range. -/
def sk_get_nlattr (pkt : List Nat) (a x : Nat) : Nat :=
  if pkt.length < 4 then 0
  else if pkt.length - 4 < a then 0
  else nla_find pkt x pkt.length a

/-- Execute a classic-BPF program: `pc` the program counter, `a`/`x`
the accumulator and index registers.  Covers exactly the opcodes of
`psample_group_filter`; anything else (or running off the program)
yields `none`.  `some v` is the program's return value: 0 drops the
packet, non-zero accepts it. -/
def bpfExec (prog : List SockFilterInstr) (pkt : List Nat) :
    Nat → Nat → Nat → Nat → Option Nat
  | 0, _, _, _ => none
  | fuel + 1, pc, a, x =>
    match prog.get? pc with
    | none => none
    | some i =>
      if i.code = 0x00 then bpfExec prog pkt fuel (pc + 1) i.k x
      else if i.code = 0x01 then bpfExec prog pkt fuel (pc + 1) a i.k
      else if i.code = 0x20 then
        if i.k = 4294963212 then
          bpfExec prog pkt fuel (pc + 1) (sk_get_nlattr pkt a x) x
        else
          match be32At pkt i.k with
          | some v => bpfExec prog pkt fuel (pc + 1) v x
          | none => some 0
      else if i.code = 0x07 then bpfExec prog pkt fuel (pc + 1) a a
      else if i.code = 0x40 then
        match be32At pkt (x + i.k) with
        | some v => bpfExec prog pkt fuel (pc + 1) v x
        | none => some 0
      else if i.code = 0x15 then
        bpfExec prog pkt fuel (pc + 1 + (if a = i.k then i.jt else i.jf)) a x
      else if i.code = 0x06 then some i.k
      else none

/-- Whether the filter program accepts the packet. -/
def bpfAccepts (prog : List SockFilterInstr) (pkt : List Nat) : Bool :=
  match bpfExec prog pkt (prog.length + 1) 0 0 0 with
  | some v => decide (v ≠ 0)
  | none => false

/-- Little-endian encoding of a 32-bit value (host byte order). -/
def le32Bytes (v : Nat) : List Nat :=
  [v % 256, v / 256 % 256, v / 65536 % 256, v / 16777216 % 256]

/-- A canonical sampled-packet netlink datagram carrying group `g`:
a 16-byte `nlmsghdr` (length 28), a 4-byte `genlmsghdr` with the sample
command, and one `PSAMPLE_ATTR_SAMPLE_GROUP` attribute (header length
8) whose payload is `g` in host byte order. -/
def samplePacket (g : Nat) : List Nat :=
  [28, 0, 0, 0, 0, 0, 0, 0, 0, 0, 0, 0, 0, 0, 0, 0] ++
    [PSAMPLE_CMD_SAMPLE, 1, 0, 0] ++
    [8, 0, PSAMPLE_ATTR_SAMPLE_GROUP, 0] ++ le32Bytes g

/-! ### The capture bridge (pcap write path) -/

def MNL_SOCKET_BUFFER_SIZE : Nat := 8192

/-- The constant 16-byte Linux cooked (SLL) header built by
`psample_pcap_buf_init`: `pkttype = htons(PACKET_OUTGOING) = 4`,
`hatype = htons(ARPHRD_NETLINK) = 824`, `halen = 0`, 8 zero address
bytes, `family = htons(AF_NETLINK) = 16`, all big-endian on the wire. -/
def sllHeaderBytes : List Nat :=
  [0, 4, 3, 56, 0, 0, 0, 0, 0, 0, 0, 0, 0, 0, 0, 16]

/-- `memcpy(dst + off, src, src.length)` on byte lists. -/
def memcpyAt (dst : List Nat) (off : Nat) (src : List Nat) : List Nat :=
  dst.take off ++ src ++ dst.drop (off + src.length)

/-- The pcap state of a handle: the configured snapshot length, the
reusable frame buffer `pcap_buf` (`calloc`ed to `snaplen` bytes and
pre-filled with the cooked header), and the frames appended to the
capture sink so far. -/
structure PcapState where
  snaplen : Nat
  pcap_buf : List Nat
  frames : List (List Nat)
deriving DecidableEq, Repr

/-- `psample_pcap_buf_init` (src/psample.c:212-233) composed with the
`snaplen` assignment of `psample_pcap_init` (which always uses
0xffff). -/
def psample_pcap_buf_init (snaplen : Nat) : PcapState :=
  { snaplen := snaplen,
    pcap_buf := memcpyAt (List.replicate snaplen 0) 0 sllHeaderBytes,
    frames := [] }

/-- `psample_pcap_write` (src/psample.c:240-263): compute `pkt_len`,
copy `pkt_len` bytes from `buf` to `pcap_buf + 16`, and dump a frame of
`caplen = pkt_len` bytes starting at `pcap_buf` (so the dumped frame
comprises the cooked header and the bytes copied after it, cut off at
`pkt_len`).  `sizeof(struct linux_sll)` is 16. -/
def psample_pcap_write (st : PcapState) (buf : List Nat) (len : Nat) :
    PcapState :=
  let pkt_len := if len + 16 < st.snaplen then len + 16 else st.snaplen - 16
  let newBuf := memcpyAt st.pcap_buf 16 (buf.take pkt_len)
  { st with pcap_buf := newBuf, frames := st.frames ++ [newBuf.take pkt_len] }

/-- `psample_socket_recv_write` (src/psample.c:537-553): receive each
queued datagram into the socket's buffer (overwriting its front) and
pass the buffer to `psample_pcap_write` with length
`MNL_SOCKET_BUFFER_SIZE` — the *buffer size*, not the received length.
A non-positive receive result ends the loop; `endRes` is what the
receive returns once the queue is exhausted. -/
def psample_socket_recv_write :
    List (List Nat) → List Nat → PcapState → Int → Int × List Nat × PcapState
  | [], nlgBuf, st, endRes => (endRes, nlgBuf, st)
  | d :: rest, nlgBuf, st, endRes =>
    if d.length = 0 then (0, nlgBuf, st)
    else
      let buf2 := memcpyAt nlgBuf 0 (d.take MNL_SOCKET_BUFFER_SIZE)
      psample_socket_recv_write rest buf2
        (psample_pcap_write st buf2 MNL_SOCKET_BUFFER_SIZE) endRes

/-- The callback invocations the dispatch engine performs for a list of
messages when none of them stops the batch. -/
def evInvs (msgCb : Option (AttrTable → Int))
    (cfgCb : Option (Nat → AttrTable → Int)) : List GenlMsg → List Invocation
  | [] => []
  | m :: ms => (psample_event_handler msgCb cfgCb m).2.2 ++ evInvs msgCb cfgCb ms

/-- The callback invocations group enumeration performs for a list of
messages when none of them stops the batch. -/
def grInvs (cb : PsampleGroup → CPtr → Int) (cb_data : CPtr) :
    List GenlMsg → List (PsampleGroup × CPtr)
  | [] => []
  | m :: ms => (group_handle cb cb_data m).2.2 ++ grInvs cb cb_data ms

/-! ## Helper lemmas -/

theorem byteswap32_bytes (b0 b1 b2 b3 : Nat) (h0 : b0 < 256) (h1 : b1 < 256)
    (h2 : b2 < 256) (h3 : b3 < 256) :
    byteswap32 (b0 + 256 * b1 + 65536 * b2 + 16777216 * b3) =
      b3 + 256 * b2 + 65536 * b1 + 16777216 * b0 := by
  unfold byteswap32
  omega

theorem byteswap32_byteswap32 (x : Nat) (h : x < 4294967296) :
    byteswap32 (byteswap32 x) = x := by
  have hx : x = x % 256 + 256 * (x / 256 % 256) + 65536 * (x / 65536 % 256) +
      16777216 * (x / 16777216 % 256) := by omega
  calc byteswap32 (byteswap32 x)
      = byteswap32 (byteswap32 (x % 256 + 256 * (x / 256 % 256) +
          65536 * (x / 65536 % 256) + 16777216 * (x / 16777216 % 256))) := by
        rw [← hx]
    _ = byteswap32 (x / 16777216 % 256 + 256 * (x / 65536 % 256) +
          65536 * (x / 256 % 256) + 16777216 * (x % 256)) := by
        rw [byteswap32_bytes _ _ _ _ (by omega) (by omega) (by omega) (by omega)]
    _ = x % 256 + 256 * (x / 256 % 256) + 65536 * (x / 65536 % 256) +
          16777216 * (x / 16777216 % 256) := by
        rw [byteswap32_bytes _ _ _ _ (by omega) (by omega) (by omega) (by omega)]
    _ = x := by omega

theorem byteswap32_inj (x y : Nat) (hx : x < 4294967296) (hy : y < 4294967296)
    (h : byteswap32 x = byteswap32 y) : x = y := by
  have h2 := congrArg byteswap32 h
  rwa [byteswap32_byteswap32 x hx, byteswap32_byteswap32 y hy] at h2

/-- The `SKF_AD_NLATTR` load finds the sample-group attribute of the
canonical sampled packet at offset 20. -/
theorem sk_get_nlattr_samplePacket (g : Nat) :
    sk_get_nlattr (samplePacket g) 20 3 = 20 := by
  simp [sk_get_nlattr, samplePacket, nla_find, le16At, le32Bytes,
    PSAMPLE_CMD_SAMPLE, PSAMPLE_ATTR_SAMPLE_GROUP, NLA_ALIGN]

/-- The big-endian load of the attribute payload of the canonical
sampled packet yields the byte-swapped group value. -/
theorem be32At_samplePacket (g : Nat) :
    be32At (samplePacket g) 24 = some (byteswap32 g) := by
  simp [be32At, samplePacket, le32Bytes, byteswap32,
    PSAMPLE_CMD_SAMPLE, PSAMPLE_ATTR_SAMPLE_GROUP]
  ring

/-- Evaluating the patched filter template on a canonical sampled packet
of group `g'` accepts exactly when the byte-swapped values agree. -/
theorem bpf_patched_eval (g g' : Nat) (hg : g < 4294967296) :
    bpfAccepts
      (List.set psample_group_filter FILTER_GROUP_COMMAND ⟨0x15, 1, 0, ntohl g⟩)
      (samplePacket g') = decide (byteswap32 g' = byteswap32 g) := by
  have h1 := sk_get_nlattr_samplePacket g'
  have h2 := be32At_samplePacket g'
  have hmod : g % 4294967296 = g := Nat.mod_eq_of_lt hg
  by_cases hc : byteswap32 g' = byteswap32 g
  · simp [bpfAccepts, bpfExec, psample_group_filter, FILTER_GROUP_COMMAND,
      ntohl, hmod, h1, h2, hc]
  · simp [bpfAccepts, bpfExec, psample_group_filter, FILTER_GROUP_COMMAND,
      ntohl, hmod, h1, h2, hc]

/-- Acceptance of canonical packets by the patched template is exactly
equality of the group numbers. -/
theorem bpf_patched_match (g g' : Nat) (hg : g < 4294967296)
    (hg' : g' < 4294967296) :
    bpfAccepts
      (List.set psample_group_filter FILTER_GROUP_COMMAND ⟨0x15, 1, 0, ntohl g⟩)
      (samplePacket g') = decide (g' = g) := by
  rw [bpf_patched_eval g g' hg]
  by_cases hc : g' = g
  · simp [hc]
  · simp [hc]
    intro habs
    exact hc (byteswap32_inj g' g hg' hg habs)

/-- If a prefix of the attribute stream parses fine and `attr_cb`
rejects the next attribute, the whole parse aborts there with exactly
the table built from the prefix: attributes after the offender are
never examined. -/
theorem mnl_attr_parse_abort (bad : Nlattr) (post : List Nlattr) :
    ∀ (pre : List Nlattr) (tb : AttrTable),
    (mnl_attr_parse pre tb).1 = true →
    attr_cb bad (mnl_attr_parse pre tb).2 = none →
    mnl_attr_parse (pre ++ bad :: post) tb = (false, (mnl_attr_parse pre tb).2)
  | [], tb, _, hbad => by
    simp only [mnl_attr_parse] at hbad
    simp [mnl_attr_parse, hbad]
  | a :: pre, tb, hpre, hbad => by
    cases ha : attr_cb a tb with
    | none => simp [mnl_attr_parse, ha] at hpre
    | some tb2 =>
      have hpre2 : (mnl_attr_parse pre tb2).1 = true := by
        simpa [mnl_attr_parse, ha] using hpre
      have hbad2 : attr_cb bad (mnl_attr_parse pre tb2).2 = none := by
        simpa [mnl_attr_parse, ha] using hbad
      simpa [mnl_attr_parse, ha] using
        mnl_attr_parse_abort bad post pre tb2 hpre2 hbad2

/-- Each message contributes at most one callback invocation in the
dispatch engine. -/
theorem ev_inv_len_le_one (msgCb : Option (AttrTable → Int))
    (cfgCb : Option (Nat → AttrTable → Int)) (m : GenlMsg) :
    (psample_event_handler msgCb cfgCb m).2.2.length ≤ 1 := by
  unfold psample_event_handler
  cases (if m.cmd = PSAMPLE_CMD_SAMPLE then msgCb else none) with
  | some cb => simp
  | none => cases cfgCb with
    | some cb => simp
    | none => simp

theorem evInvs_len_le (msgCb : Option (AttrTable → Int))
    (cfgCb : Option (Nat → AttrTable → Int)) :
    ∀ ms : List GenlMsg, (evInvs msgCb cfgCb ms).length ≤ ms.length
  | [] => by simp [evInvs]
  | m :: ms => by
    simp only [evInvs, List.length_append, List.length_cons]
    have h1 := ev_inv_len_le_one msgCb cfgCb m
    have h2 := evInvs_len_le msgCb cfgCb ms
    omega

/-- Each message contributes at most one callback invocation in group
enumeration. -/
theorem gr_inv_len_le_one (cb : PsampleGroup → CPtr → Int) (cb_data : CPtr)
    (m : GenlMsg) : (group_handle cb cb_data m).2.2.length ≤ 1 := by
  simp only [group_handle]
  split
  · simp
  · simp

theorem grInvs_len_le (cb : PsampleGroup → CPtr → Int) (cb_data : CPtr) :
    ∀ ms : List GenlMsg, (grInvs cb cb_data ms).length ≤ ms.length
  | [] => by simp [grInvs]
  | m :: ms => by
    simp only [grInvs, List.length_append, List.length_cons]
    have h1 := gr_inv_len_le_one cb cb_data m
    have h2 := grInvs_len_le cb cb_data ms
    omega

/-- The dispatch receive loop processes an all-`MNL_CB_OK` prefix and
then stops at the first message whose handler returns `MNL_CB_STOP`,
with the stopping callback's value in `cb_retval` and the trace closed
off at that message. -/
theorem evRun_stop (msgCb : Option (AttrTable → Int))
    (cfgCb : Option (Nat → AttrTable → Int)) (m : GenlMsg)
    (post : List GenlMsg) (v : Int)
    (hm1 : (psample_event_handler msgCb cfgCb m).1 = MnlRet.stop)
    (hm2 : (psample_event_handler msgCb cfgCb m).2.1 = some v) :
    ∀ (pre : List GenlMsg) (s : EvState),
    (∀ m' ∈ pre, (psample_event_handler msgCb cfgCb m').1 = MnlRet.ok) →
    recvRunGo (evThread msgCb cfgCb) (pre ++ m :: post) s =
      (MnlRet.stop,
       ⟨some v,
        s.trace ++ (evInvs msgCb cfgCb pre ++ (psample_event_handler msgCb cfgCb m).2.2)⟩)
  | [], s, _ => by
    rcases hh : psample_event_handler msgCb cfgCb m with ⟨r, w, inv⟩
    rw [hh] at hm1 hm2
    simp only at hm1 hm2
    subst hm1
    subst hm2
    simp [recvRunGo, evThread, hh, evInvs]
  | a :: pre, s, hok => by
    have ha : (psample_event_handler msgCb cfgCb a).1 = MnlRet.ok :=
      hok a (by simp)
    have hrest : ∀ m' ∈ pre, (psample_event_handler msgCb cfgCb m').1 = MnlRet.ok :=
      fun m' hm' => hok m' (by simp [hm'])
    rcases hh : psample_event_handler msgCb cfgCb a with ⟨r, w, inv⟩
    rw [hh] at ha
    simp only at ha
    subst ha
    simp only [List.cons_append, recvRunGo, evThread, hh, List.append_eq]
    rw [evRun_stop msgCb cfgCb m post v hm1 hm2 pre _ hrest]
    simp [evInvs, hh, List.append_assoc]

/-- Same for the group-enumeration receive loop. -/
theorem grRun_stop (cb : PsampleGroup → CPtr → Int) (cb_data : CPtr)
    (m : GenlMsg) (post : List GenlMsg) (v : Int)
    (hm1 : (group_handle cb cb_data m).1 = MnlRet.stop)
    (hm2 : (group_handle cb cb_data m).2.1 = some v) :
    ∀ (pre : List GenlMsg) (s : GrState),
    (∀ m' ∈ pre, (group_handle cb cb_data m').1 = MnlRet.ok) →
    recvRunGo (grThread cb cb_data) (pre ++ m :: post) s =
      (MnlRet.stop,
       ⟨some v,
        s.trace ++ (grInvs cb cb_data pre ++ (group_handle cb cb_data m).2.2)⟩)
  | [], s, _ => by
    rcases hh : group_handle cb cb_data m with ⟨r, w, inv⟩
    rw [hh] at hm1 hm2
    simp only at hm1 hm2
    subst hm1
    subst hm2
    simp [recvRunGo, grThread, hh, grInvs]
  | a :: pre, s, hok => by
    have ha : (group_handle cb cb_data a).1 = MnlRet.ok := hok a (by simp)
    have hrest : ∀ m' ∈ pre, (group_handle cb cb_data m').1 = MnlRet.ok :=
      fun m' hm' => hok m' (by simp [hm'])
    rcases hh : group_handle cb cb_data a with ⟨r, w, inv⟩
    rw [hh] at ha
    simp only at ha
    subst ha
    simp only [List.cons_append, recvRunGo, grThread, hh, List.append_eq]
    rw [grRun_stop cb cb_data m post v hm1 hm2 pre _ hrest]
    simp [grInvs, hh, List.append_assoc]

/-- The frame buffer built by `psample_pcap_buf_init`: the cooked header
followed by zeros. -/
theorem pcap_buf_init_spec (n : Nat) :
    (psample_pcap_buf_init n).pcap_buf
      = sllHeaderBytes ++ List.replicate (n - 16) 0 := by
  simp [psample_pcap_buf_init, memcpyAt, sllHeaderBytes, List.drop_replicate]

theorem pcap_buf_init_take16 (n : Nat) :
    (psample_pcap_buf_init n).pcap_buf.take 16 = sllHeaderBytes := by
  rw [pcap_buf_init_spec]
  rw [List.take_append_eq_append_take]
  simp [sllHeaderBytes]

/-- `psample_pcap_write` in the truncating branch
(`len + 16 ≥ snaplen`): the written frame is the header followed by
`snaplen - 32` payload bytes, for a total length of `snaplen - 16`. -/
theorem pcap_write_trunc (st : PcapState) (buf : List Nat) (len : Nat)
    (hsnap : 32 ≤ st.snaplen) (htrig : st.snaplen ≤ len + 16)
    (hbuf : st.snaplen - 16 ≤ buf.length)
    (hhdr : st.pcap_buf.take 16 = sllHeaderBytes) :
    (psample_pcap_write st buf len).frames
      = st.frames ++ [sllHeaderBytes ++ buf.take (st.snaplen - 32)] ∧
    (sllHeaderBytes ++ buf.take (st.snaplen - 32)).length = st.snaplen - 16 := by
  have hlen16 : sllHeaderBytes.length = 16 := by decide
  have hnotlt : ¬ len + 16 < st.snaplen := by omega
  have hsrclen : (buf.take (st.snaplen - 16)).length = st.snaplen - 16 := by
    simp [List.length_take]
    omega
  constructor
  · simp only [psample_pcap_write, memcpyAt, if_neg hnotlt]
    rw [hhdr]
    have hA : (sllHeaderBytes ++ List.take (st.snaplen - 16) buf).length
        = st.snaplen := by
      rw [List.length_append, hlen16, hsrclen]
      omega
    rw [List.take_append_eq_append_take, hA,
      show st.snaplen - 16 - st.snaplen = 0 from by omega, List.take_zero,
      List.append_nil]
    rw [List.take_append_eq_append_take, hlen16,
      List.take_of_length_le (by omega : sllHeaderBytes.length ≤ st.snaplen - 16),
      List.take_take,
      show min (st.snaplen - 16 - 16) (st.snaplen - 16) = st.snaplen - 32 from by
        omega]
  · rw [List.length_append, hlen16, List.length_take]
    omega

/-- `psample_pcap_write` in the non-truncating branch with `len` equal
to the buffer's length: the frame is the header followed by the whole
buffer. -/
theorem pcap_write_fit (st : PcapState) (buf : List Nat) (len : Nat)
    (hfit : len + 16 < st.snaplen) (hbuf : buf.length = len)
    (hhdr : st.pcap_buf.take 16 = sllHeaderBytes) :
    (psample_pcap_write st buf len).frames
      = st.frames ++ [sllHeaderBytes ++ buf] := by
  have hlen16 : sllHeaderBytes.length = 16 := by decide
  have hsrc : buf.take (len + 16) = buf := List.take_of_length_le (by omega)
  simp only [psample_pcap_write, memcpyAt, if_pos hfit]
  rw [hhdr, hsrc]
  have hA : (sllHeaderBytes ++ buf).length = len + 16 := by
    rw [List.length_append, hlen16, hbuf]
    omega
  rw [List.take_append_eq_append_take, hA, Nat.sub_self, List.take_zero,
    List.append_nil]
  rw [List.take_of_length_le (by omega : (sllHeaderBytes ++ buf).length ≤ len + 16)]

/-- One pass of `psample_socket_recv_write` for a single received
datagram `d`: the frame written is the cooked header followed by the
*entire* receive buffer after `d` overwrote its front — `d` itself plus
the residual buffer bytes — because the call passes
`MNL_SOCKET_BUFFER_SIZE`, not the received length. -/
theorem recv_write_single (d b0 : List Nat) (st : PcapState) (endRes : Int)
    (hd : d ≠ []) (hdlen : d.length ≤ MNL_SOCKET_BUFFER_SIZE)
    (hb0 : b0.length = MNL_SOCKET_BUFFER_SIZE)
    (hsnap : MNL_SOCKET_BUFFER_SIZE + 16 < st.snaplen)
    (hhdr : st.pcap_buf.take 16 = sllHeaderBytes) :
    (psample_socket_recv_write [d] b0 st endRes).2.2.frames
      = st.frames ++ [sllHeaderBytes ++ (d ++ b0.drop d.length)] := by
  have hne : ¬ d.length = 0 := by simpa using hd
  have htake : d.take MNL_SOCKET_BUFFER_SIZE = d := List.take_of_length_le hdlen
  have hbuf2 : memcpyAt b0 0 (d.take MNL_SOCKET_BUFFER_SIZE)
      = d ++ b0.drop d.length := by
    simp [memcpyAt, htake]
  have hlen : (d ++ b0.drop d.length).length = MNL_SOCKET_BUFFER_SIZE := by
    simp only [List.length_append, List.length_drop, hb0]
    omega
  simp only [psample_socket_recv_write, if_neg hne, hbuf2]
  exact pcap_write_fit st _ MNL_SOCKET_BUFFER_SIZE hsnap hlen hhdr

/-! ## Claim theorems -/

/-- C1: the claim says that a dispatch call in which no callback runs —
both callbacks unregistered, or a non-blocking call on an empty queue —
consumes any queued messages and returns zero.  In the code
`event_handler_data.cb_retval` is never initialized by
`psample_dispatch` and is only written when a callback runs, so in both
scenarios the function returns the indeterminate value of an unwritten
stack field, not zero: evaluating the model at both failing inputs
yields the `indeterminate` outcome (with no callback invoked). -/
theorem C1_dispatch_no_callback_reads_unset_retval :
    psample_dispatch (some ⟨⟨0, none⟩⟩) none none false
        [⟨PSAMPLE_CMD_SAMPLE, []⟩, ⟨PSAMPLE_CMD_GET_GROUP, []⟩] TransportEnd.ok
      = (DispatchOutcome.indeterminate, []) ∧
    psample_dispatch (some ⟨⟨0, none⟩⟩) none none false []
        (TransportEnd.errno EWOULDBLOCK)
      = (DispatchOutcome.indeterminate, []) := by
  constructor
  · decide
  · decide

/-- C2, counterexample: a sample message whose second attribute fails
`MNL_TYPE_U32` validation (a 2-byte `PSAMPLE_ATTR_SAMPLE_RATE`).  The
decode of this message fails (`mnl_attr_parse` reports an error), yet
`psample_dispatch` still invokes the registered sample callback — with
the partial table holding only the first attribute — and returns the
callback's value 0, not an error: the claim that the failure is
propagated and no callback is invoked with a partial table is false. -/
theorem C2_counterexample :
    psample_dispatch (some ⟨⟨0, none⟩⟩) (some (fun _ => 0)) none true
        [⟨PSAMPLE_CMD_SAMPLE,
          [⟨PSAMPLE_ATTR_SAMPLE_GROUP, [7, 0, 0, 0]⟩,
           ⟨PSAMPLE_ATTR_SAMPLE_RATE, [1, 2]⟩,
           ⟨PSAMPLE_ATTR_GROUP_SEQ, [9, 0, 0, 0]⟩]⟩]
        TransportEnd.ok
      = (DispatchOutcome.ret 0,
         [Invocation.msg (attrTableInit.set PSAMPLE_ATTR_SAMPLE_GROUP
            (some ⟨PSAMPLE_ATTR_SAMPLE_GROUP, [7, 0, 0, 0]⟩))]) ∧
    (mnl_attr_parse
        [⟨PSAMPLE_ATTR_SAMPLE_GROUP, [7, 0, 0, 0]⟩,
         ⟨PSAMPLE_ATTR_SAMPLE_RATE, [1, 2]⟩,
         ⟨PSAMPLE_ATTR_GROUP_SEQ, [9, 0, 0, 0]⟩] attrTableInit).1 = false := by
  constructor
  · decide
  · decide

/-- C2, amended: an attribute whose id exceeds `PSAMPLE_ATTR_MAX` or
whose wire type mismatches its mandated type aborts the attribute parse
— no subsequent field of the table is populated and `mnl_attr_parse`
returns an error — but `psample_event_handler` ignores the parse
result: a registered callback is still invoked with the partial table
built before the offending attribute, and the handler's outcome is the
callback's, not a decode error. -/
theorem C2_amended (pre post : List Nlattr) (bad : Nlattr)
    (cb : AttrTable → Int) (cfgCb : Option (Nat → AttrTable → Int))
    (hpre : (mnl_attr_parse pre attrTableInit).1 = true)
    (hbad : attr_cb bad (mnl_attr_parse pre attrTableInit).2 = none) :
    mnl_attr_parse (pre ++ bad :: post) attrTableInit
        = (false, (mnl_attr_parse pre attrTableInit).2) ∧
    psample_event_handler (some cb) cfgCb ⟨PSAMPLE_CMD_SAMPLE, pre ++ bad :: post⟩
        = (if cb ((mnl_attr_parse pre attrTableInit).2) ≠ 0 then MnlRet.stop
             else MnlRet.ok,
           some (cb ((mnl_attr_parse pre attrTableInit).2)),
           [Invocation.msg ((mnl_attr_parse pre attrTableInit).2)]) := by
  have habort := mnl_attr_parse_abort bad post pre attrTableInit hpre hbad
  refine ⟨habort, ?_⟩
  simp only [psample_event_handler, habort]
  simp

/-- C2, witness for the amended theorem at a concrete attribute
stream. -/
theorem C2_witness :
    (mnl_attr_parse [⟨3, [7, 0, 0, 0]⟩] attrTableInit).1 = true ∧
    (mnl_attr_parse ([⟨3, [7, 0, 0, 0]⟩] ++ ⟨5, [1, 2]⟩ :: [⟨4, [9, 0, 0, 0]⟩])
        attrTableInit
      = (false, (mnl_attr_parse [⟨3, [7, 0, 0, 0]⟩] attrTableInit).2) ∧
    psample_event_handler (some (fun _ => 0)) none
        ⟨PSAMPLE_CMD_SAMPLE, [⟨3, [7, 0, 0, 0]⟩] ++ ⟨5, [1, 2]⟩ :: [⟨4, [9, 0, 0, 0]⟩]⟩
      = (if (fun (_ : AttrTable) => (0 : Int))
              ((mnl_attr_parse [⟨3, [7, 0, 0, 0]⟩] attrTableInit).2) ≠ 0
            then MnlRet.stop else MnlRet.ok,
         some ((fun (_ : AttrTable) => (0 : Int))
            ((mnl_attr_parse [⟨3, [7, 0, 0, 0]⟩] attrTableInit).2)),
         [Invocation.msg ((mnl_attr_parse [⟨3, [7, 0, 0, 0]⟩] attrTableInit).2)])) :=
  ⟨by decide,
   C2_amended [⟨3, [7, 0, 0, 0]⟩] [⟨4, [9, 0, 0, 0]⟩] ⟨5, [1, 2]⟩
     (fun _ => 0) none (by decide) (by decide)⟩

/-- C3: for every handle state and groups G1 ≠ G2, a successful
`psample_bind_group` installs the fixed template with exactly
instruction `FILTER_GROUP_COMMAND`'s comparison immediate patched to
the group in network byte order (`ntohl`); after binding G1 then G2 the
kernel holds exactly one filter — the one patched to G2 — and that
filter accepts a sampled packet of group G2 and rejects one of group
G1. -/
theorem C3_bind_group_installs_patched_filter (h0 : PsampleHandle)
    (k0 : Option (List SockFilterInstr)) (G1 G2 : Nat)
    (hG1 : G1 < 4294967296) (hG2 : G2 < 4294967296) (hne : G1 ≠ G2) :
    ∃ ev1, psample_bind_group (some h0) k0 G1 ⟨none, true, none⟩
        = ⟨BindCtl.ret 0,
           some ⟨⟨psample_group_filter.length,
             some (List.set psample_group_filter FILTER_GROUP_COMMAND
               ⟨0x15, 1, 0, ntohl G1⟩)⟩⟩,
           some (List.set psample_group_filter FILTER_GROUP_COMMAND
             ⟨0x15, 1, 0, ntohl G1⟩), ev1⟩ ∧
    psample_bind_group
        (some ⟨⟨psample_group_filter.length,
          some (List.set psample_group_filter FILTER_GROUP_COMMAND
            ⟨0x15, 1, 0, ntohl G1⟩)⟩⟩)
        (some (List.set psample_group_filter FILTER_GROUP_COMMAND
          ⟨0x15, 1, 0, ntohl G1⟩)) G2 ⟨none, true, none⟩
      = ⟨BindCtl.ret 0,
         some ⟨⟨psample_group_filter.length,
           some (List.set psample_group_filter FILTER_GROUP_COMMAND
             ⟨0x15, 1, 0, ntohl G2⟩)⟩⟩,
         some (List.set psample_group_filter FILTER_GROUP_COMMAND
           ⟨0x15, 1, 0, ntohl G2⟩),
         [BindEvent.detachedOldFilter, BindEvent.freedOldFilter,
          BindEvent.attachedNewFilter]⟩ ∧
    bpfAccepts (List.set psample_group_filter FILTER_GROUP_COMMAND
        ⟨0x15, 1, 0, ntohl G2⟩) (samplePacket G2) = true ∧
    bpfAccepts (List.set psample_group_filter FILTER_GROUP_COMMAND
        ⟨0x15, 1, 0, ntohl G2⟩) (samplePacket G1) = false := by
  have hacc2 : bpfAccepts (List.set psample_group_filter FILTER_GROUP_COMMAND
      ⟨0x15, 1, 0, ntohl G2⟩) (samplePacket G2) = true := by
    rw [bpf_patched_match G2 G2 hG2 hG2]
    simp
  have hacc1 : bpfAccepts (List.set psample_group_filter FILTER_GROUP_COMMAND
      ⟨0x15, 1, 0, ntohl G2⟩) (samplePacket G1) = false := by
    rw [bpf_patched_match G2 G1 hG2 hG1]
    simp [hne]
  have hsecond : psample_bind_group
      (some ⟨⟨psample_group_filter.length,
        some (List.set psample_group_filter FILTER_GROUP_COMMAND
          ⟨0x15, 1, 0, ntohl G1⟩)⟩⟩)
      (some (List.set psample_group_filter FILTER_GROUP_COMMAND
        ⟨0x15, 1, 0, ntohl G1⟩)) G2 ⟨none, true, none⟩
      = ⟨BindCtl.ret 0,
         some ⟨⟨psample_group_filter.length,
           some (List.set psample_group_filter FILTER_GROUP_COMMAND
             ⟨0x15, 1, 0, ntohl G2⟩)⟩⟩,
         some (List.set psample_group_filter FILTER_GROUP_COMMAND
           ⟨0x15, 1, 0, ntohl G2⟩),
         [BindEvent.detachedOldFilter, BindEvent.freedOldFilter,
          BindEvent.attachedNewFilter]⟩ := rfl
  cases hf : h0.sample_filter_fprog.filter with
  | none =>
    refine ⟨[BindEvent.attachedNewFilter], ?_, hsecond, hacc2, hacc1⟩
    simp only [psample_bind_group, hf]
    rfl
  | some old =>
    refine ⟨[BindEvent.detachedOldFilter, BindEvent.freedOldFilter,
      BindEvent.attachedNewFilter], ?_, hsecond, hacc2, hacc1⟩
    simp only [psample_bind_group, hf]
    rfl

/-- C3, witness at a fresh handle with G1 = 1, G2 = 2. -/
theorem C3_witness :
    ∃ ev1, psample_bind_group (some ⟨⟨0, none⟩⟩) none 1 ⟨none, true, none⟩
        = ⟨BindCtl.ret 0,
           some ⟨⟨psample_group_filter.length,
             some (List.set psample_group_filter FILTER_GROUP_COMMAND
               ⟨0x15, 1, 0, ntohl 1⟩)⟩⟩,
           some (List.set psample_group_filter FILTER_GROUP_COMMAND
             ⟨0x15, 1, 0, ntohl 1⟩), ev1⟩ ∧
    psample_bind_group
        (some ⟨⟨psample_group_filter.length,
          some (List.set psample_group_filter FILTER_GROUP_COMMAND
            ⟨0x15, 1, 0, ntohl 1⟩)⟩⟩)
        (some (List.set psample_group_filter FILTER_GROUP_COMMAND
          ⟨0x15, 1, 0, ntohl 1⟩)) 2 ⟨none, true, none⟩
      = ⟨BindCtl.ret 0,
         some ⟨⟨psample_group_filter.length,
           some (List.set psample_group_filter FILTER_GROUP_COMMAND
             ⟨0x15, 1, 0, ntohl 2⟩)⟩⟩,
         some (List.set psample_group_filter FILTER_GROUP_COMMAND
           ⟨0x15, 1, 0, ntohl 2⟩),
         [BindEvent.detachedOldFilter, BindEvent.freedOldFilter,
          BindEvent.attachedNewFilter]⟩ ∧
    bpfAccepts (List.set psample_group_filter FILTER_GROUP_COMMAND
        ⟨0x15, 1, 0, ntohl 2⟩) (samplePacket 2) = true ∧
    bpfAccepts (List.set psample_group_filter FILTER_GROUP_COMMAND
        ⟨0x15, 1, 0, ntohl 2⟩) (samplePacket 1) = false :=
  C3_bind_group_installs_patched_filter ⟨⟨0, none⟩⟩ none 1 2
    (by decide) (by decide) (by decide)

/-- C4, counterexample: with the configured snapshot length 0xffff and
a 65520-byte payload (65520 + 16 > 65535), the claim says the written
frame's total length equals the snapshot length 65535 exactly.  The
code sets both the copy length and `caplen` to `snaplen - 16`, so the
written frame is 65519 bytes, not 65535. -/
theorem C4_counterexample :
    ((psample_pcap_write (psample_pcap_buf_init 65535)
        (List.replicate 65520 7) 65520).frames.map List.length) = [65519] := by
  have hsnap : (psample_pcap_buf_init 65535).snaplen = 65535 := rfl
  have hfr : (psample_pcap_buf_init 65535).frames = [] := rfl
  have h := pcap_write_trunc (psample_pcap_buf_init 65535)
      (List.replicate 65520 7) 65520 (by rw [hsnap]; norm_num)
      (by rw [hsnap]; norm_num)
      (by rw [hsnap, List.length_replicate]; norm_num)
      (pcap_buf_init_take16 65535)
  rw [h.1, hfr, List.nil_append, List.map_cons, List.map_nil, h.2, hsnap]

/-- C4, amended: whenever `payload + 16 ≥ snaplen` (also at exact
equality) the frame is truncated so that its *total* length — the
16-byte cooked header plus `snaplen - 32` payload bytes — equals
`snaplen - 16`, not `snaplen`; the header itself is never truncated. -/
theorem C4_amended (st : PcapState) (buf : List Nat) (len : Nat)
    (hsnap : 32 ≤ st.snaplen) (htrig : st.snaplen ≤ len + 16)
    (hbuf : st.snaplen - 16 ≤ buf.length)
    (hhdr : st.pcap_buf.take 16 = sllHeaderBytes) :
    (psample_pcap_write st buf len).frames
      = st.frames ++ [sllHeaderBytes ++ buf.take (st.snaplen - 32)] ∧
    (sllHeaderBytes ++ buf.take (st.snaplen - 32)).length = st.snaplen - 16 :=
  pcap_write_trunc st buf len hsnap htrig hbuf hhdr

/-- C4, witness at snapshot length 40 with a 30-byte payload. -/
theorem C4_witness :
    (psample_pcap_write (psample_pcap_buf_init 40) (List.replicate 30 1) 30).frames
      = (psample_pcap_buf_init 40).frames ++
        [sllHeaderBytes ++
          (List.replicate 30 1).take ((psample_pcap_buf_init 40).snaplen - 32)] ∧
    (sllHeaderBytes ++
        (List.replicate 30 1).take ((psample_pcap_buf_init 40).snaplen - 32)).length
      = (psample_pcap_buf_init 40).snaplen - 16 :=
  C4_amended (psample_pcap_buf_init 40) (List.replicate 30 1) 30
    (by decide) (by decide) (by decide) (pcap_buf_init_take16 40)

/-- C5, counterexample: a received 3-byte datagram (3 ≤ snaplen − 16)
should, per the claim, produce a frame that is the 16-byte cooked
header followed by exactly those 3 bytes.  Because the receive loop
passes `MNL_SOCKET_BUFFER_SIZE` instead of the received length, the
frame is the header followed by all 8192 buffer bytes — the datagram
plus 8189 residual bytes. -/
theorem C5_counterexample :
    (psample_socket_recv_write [[1, 2, 3]] (List.replicate 8192 0)
        (psample_pcap_buf_init 65535) 0).2.2.frames
      = [sllHeaderBytes ++ ([1, 2, 3] ++ List.replicate 8189 0)] ∧
    ¬ (psample_socket_recv_write [[1, 2, 3]] (List.replicate 8192 0)
        (psample_pcap_buf_init 65535) 0).2.2.frames
      = [sllHeaderBytes ++ [1, 2, 3]] := by
  have h := recv_write_single [1, 2, 3] (List.replicate 8192 0)
      (psample_pcap_buf_init 65535) 0 (by decide) (by decide)
      (by rw [List.length_replicate]; rfl) (by decide)
      (pcap_buf_init_take16 65535)
  have hfr : (psample_pcap_buf_init 65535).frames = [] := rfl
  rw [hfr, List.nil_append] at h
  have hdrop : (List.replicate 8192 (0 : Nat)).drop ([1, 2, 3] : List Nat).length
      = List.replicate 8189 0 := by
    rw [List.drop_replicate]
    rfl
  rw [hdrop] at h
  refine ⟨h, ?_⟩
  rw [h]
  intro heq
  have hlen := congrArg (fun l => (l.headD []).length) heq
  simp only [List.headD_cons, List.length_append, List.length_replicate,
    List.length_cons, List.length_nil] at hlen
  omega

/-- C5, amended: for every received non-empty datagram the capture
bridge writes one frame consisting of the cooked header followed by the
entire `MNL_SOCKET_BUFFER_SIZE`-byte receive buffer — the datagram's
bytes and then the buffer's residual bytes — for a fixed total of
16 + 8192 bytes; the `snaplen` truncation never applies on this path
because the length passed is the constant buffer size. -/
theorem C5_amended (d b0 : List Nat) (st : PcapState) (endRes : Int)
    (hd : d ≠ []) (hdlen : d.length ≤ MNL_SOCKET_BUFFER_SIZE)
    (hb0 : b0.length = MNL_SOCKET_BUFFER_SIZE)
    (hsnap : MNL_SOCKET_BUFFER_SIZE + 16 < st.snaplen)
    (hhdr : st.pcap_buf.take 16 = sllHeaderBytes) :
    (psample_socket_recv_write [d] b0 st endRes).2.2.frames
      = st.frames ++ [sllHeaderBytes ++ (d ++ b0.drop d.length)] ∧
    (sllHeaderBytes ++ (d ++ b0.drop d.length)).length
      = 16 + MNL_SOCKET_BUFFER_SIZE := by
  refine ⟨recv_write_single d b0 st endRes hd hdlen hb0 hsnap hhdr, ?_⟩
  have h16 : sllHeaderBytes.length = 16 := by decide
  rw [List.length_append, List.length_append, List.length_drop, h16, hb0]
  omega

/-- C5, witness at a concrete 3-byte datagram. -/
theorem C5_witness :
    (psample_socket_recv_write [[1, 2, 3]] (List.replicate 8192 0)
        (psample_pcap_buf_init 65535) 0).2.2.frames
      = (psample_pcap_buf_init 65535).frames ++
        [sllHeaderBytes ++
          ([1, 2, 3] ++ (List.replicate 8192 0).drop ([1, 2, 3] : List Nat).length)] ∧
    (sllHeaderBytes ++
        ([1, 2, 3] ++
          (List.replicate 8192 0).drop ([1, 2, 3] : List Nat).length)).length
      = 16 + MNL_SOCKET_BUFFER_SIZE :=
  C5_amended [1, 2, 3] (List.replicate 8192 0) (psample_pcap_buf_init 65535) 0
    (by decide) (by decide) (by rw [List.length_replicate]; rfl)
    (by decide) (pcap_buf_init_take16 65535)

/-- C6: the claim says the group-enumeration callback receives the same
opaque context pointer supplied at registration.  The code invokes
`cb(&group, &group_handler_data->cb_data)` — the *address of the field
storing* the context pointer, not its value — so a callback registered
with the pointer `user 5` is invoked with `cbDataField`, which is a
different pointer value. -/
theorem C6_foreach_passes_field_address :
    psample_group_foreach (some ⟨⟨0, none⟩⟩) (fun _ _ => 0) (CPtr.user 5) none
        [⟨PSAMPLE_CMD_GET_GROUP,
          [⟨PSAMPLE_ATTR_SAMPLE_GROUP, [7, 0, 0, 0]⟩,
           ⟨PSAMPLE_ATTR_GROUP_REFCOUNT, [1, 0, 0, 0]⟩,
           ⟨PSAMPLE_ATTR_GROUP_SEQ, [2, 0, 0, 0]⟩]⟩]
        TransportEnd.ok 0
      = (ForeachOutcome.ret 0, [(⟨7, 1, 2⟩, CPtr.cbDataField)]) ∧
    CPtr.cbDataField ≠ CPtr.user 5 := by
  constructor
  · decide
  · decide

/-- C7: in both `psample_dispatch` and `psample_group_foreach`, the
first callback invocation returning non-zero stops the batch, its value
is the overall return value, and no callback runs for the remaining
messages; zero returns continue the batch (the prefix's invocations all
appear in the trace).  The number of invocations is at most the number
of messages up to and including the stopping one. -/
theorem C7_nonzero_return_stops (hdl hdl2 : PsampleHandle)
    (msgCb : Option (AttrTable → Int)) (cfgCb : Option (Nat → AttrTable → Int))
    (gcb : PsampleGroup → CPtr → Int) (data : CPtr)
    (pre post pre2 post2 : List GenlMsg) (m m2 : GenlMsg) (v w : Int)
    (block : Bool) (endc endc2 : TransportEnd) (staleErrno : Nat)
    (h1 : ∀ x ∈ pre, (psample_event_handler msgCb cfgCb x).1 = MnlRet.ok)
    (h2 : (psample_event_handler msgCb cfgCb m).1 = MnlRet.stop)
    (h3 : (psample_event_handler msgCb cfgCb m).2.1 = some v)
    (h4 : ∀ x ∈ pre2, (group_handle gcb data x).1 = MnlRet.ok)
    (h5 : (group_handle gcb data m2).1 = MnlRet.stop)
    (h6 : (group_handle gcb data m2).2.1 = some w) :
    psample_dispatch (some hdl) msgCb cfgCb block (pre ++ m :: post) endc
        = (DispatchOutcome.ret v,
           evInvs msgCb cfgCb pre ++ (psample_event_handler msgCb cfgCb m).2.2) ∧
    (evInvs msgCb cfgCb pre ++ (psample_event_handler msgCb cfgCb m).2.2).length
        ≤ pre.length + 1 ∧
    psample_group_foreach (some hdl2) gcb data none (pre2 ++ m2 :: post2) endc2
        staleErrno
      = (ForeachOutcome.ret w,
         grInvs gcb data pre2 ++ (group_handle gcb data m2).2.2) ∧
    (grInvs gcb data pre2 ++ (group_handle gcb data m2).2.2).length
        ≤ pre2.length + 1 := by
  refine ⟨?_, ?_, ?_, ?_⟩
  · simp only [psample_dispatch, mnlg_socket_recv_run]
    rw [evRun_stop msgCb cfgCb m post v h2 h3 pre _ h1]
    simp
  · have ha := evInvs_len_le msgCb cfgCb pre
    have hb := ev_inv_len_le_one msgCb cfgCb m
    rw [List.length_append]
    omega
  · simp only [psample_group_foreach, mnlg_socket_recv_run]
    rw [grRun_stop gcb data m2 post2 w h5 h6 pre2 _ h4]
    simp
  · have ha := grInvs_len_le gcb data pre2
    have hb := gr_inv_len_le_one gcb data m2
    rw [List.length_append]
    omega

/-- C7, witness: a dispatch batch whose second message triggers the
non-zero return 7, and a group dump whose second record triggers the
non-zero return 9; in both cases processing stops there. -/
theorem C7_witness :
    psample_dispatch (some ⟨⟨0, none⟩⟩)
        (some (fun tb => if (tb.getD 3 none).isSome then 7 else 0)) none false
        ([⟨0, []⟩] ++ ⟨0, [⟨3, [1, 0, 0, 0]⟩]⟩ :: [⟨0, []⟩]) TransportEnd.ok
      = (DispatchOutcome.ret 7,
         evInvs (some (fun tb => if (tb.getD 3 none).isSome then 7 else 0)) none
             [⟨0, []⟩] ++
           (psample_event_handler
             (some (fun tb => if (tb.getD 3 none).isSome then 7 else 0)) none
             ⟨0, [⟨3, [1, 0, 0, 0]⟩]⟩).2.2) ∧
    (evInvs (some (fun tb => if (tb.getD 3 none).isSome then 7 else 0)) none
         [⟨0, []⟩] ++
       (psample_event_handler
         (some (fun tb => if (tb.getD 3 none).isSome then 7 else 0)) none
         ⟨0, [⟨3, [1, 0, 0, 0]⟩]⟩).2.2).length
      ≤ List.length [(⟨0, []⟩ : GenlMsg)] + 1 ∧
    psample_group_foreach (some ⟨⟨0, none⟩⟩)
        (fun g _ => if g.num = 2 then 9 else 0) (CPtr.user 4) none
        ([⟨1, [⟨3, [1, 0, 0, 0]⟩, ⟨7, [0, 0, 0, 0]⟩, ⟨4, [0, 0, 0, 0]⟩]⟩] ++
          ⟨1, [⟨3, [2, 0, 0, 0]⟩, ⟨7, [0, 0, 0, 0]⟩, ⟨4, [0, 0, 0, 0]⟩]⟩ ::
            [⟨1, [⟨3, [3, 0, 0, 0]⟩, ⟨7, [0, 0, 0, 0]⟩, ⟨4, [0, 0, 0, 0]⟩]⟩])
        TransportEnd.ok 0
      = (ForeachOutcome.ret 9,
         grInvs (fun g _ => if g.num = 2 then 9 else 0) (CPtr.user 4)
             [⟨1, [⟨3, [1, 0, 0, 0]⟩, ⟨7, [0, 0, 0, 0]⟩, ⟨4, [0, 0, 0, 0]⟩]⟩] ++
           (group_handle (fun g _ => if g.num = 2 then 9 else 0) (CPtr.user 4)
             ⟨1, [⟨3, [2, 0, 0, 0]⟩, ⟨7, [0, 0, 0, 0]⟩, ⟨4, [0, 0, 0, 0]⟩]⟩).2.2) ∧
    (grInvs (fun g _ => if g.num = 2 then 9 else 0) (CPtr.user 4)
         [⟨1, [⟨3, [1, 0, 0, 0]⟩, ⟨7, [0, 0, 0, 0]⟩, ⟨4, [0, 0, 0, 0]⟩]⟩] ++
       (group_handle (fun g _ => if g.num = 2 then 9 else 0) (CPtr.user 4)
         ⟨1, [⟨3, [2, 0, 0, 0]⟩, ⟨7, [0, 0, 0, 0]⟩, ⟨4, [0, 0, 0, 0]⟩]⟩).2.2).length
      ≤ List.length
          [(⟨1, [⟨3, [1, 0, 0, 0]⟩, ⟨7, [0, 0, 0, 0]⟩, ⟨4, [0, 0, 0, 0]⟩]⟩ : GenlMsg)]
          + 1 :=
  C7_nonzero_return_stops ⟨⟨0, none⟩⟩ ⟨⟨0, none⟩⟩
    (some (fun tb => if (tb.getD 3 none).isSome then 7 else 0)) none
    (fun g _ => if g.num = 2 then 9 else 0) (CPtr.user 4)
    [⟨0, []⟩] [⟨0, []⟩]
    [⟨1, [⟨3, [1, 0, 0, 0]⟩, ⟨7, [0, 0, 0, 0]⟩, ⟨4, [0, 0, 0, 0]⟩]⟩]
    [⟨1, [⟨3, [3, 0, 0, 0]⟩, ⟨7, [0, 0, 0, 0]⟩, ⟨4, [0, 0, 0, 0]⟩]⟩]
    ⟨0, [⟨3, [1, 0, 0, 0]⟩]⟩
    ⟨1, [⟨3, [2, 0, 0, 0]⟩, ⟨7, [0, 0, 0, 0]⟩, ⟨4, [0, 0, 0, 0]⟩]⟩
    7 9 false TransportEnd.ok TransportEnd.ok 0
    (by decide) (by decide) (by decide) (by decide) (by decide) (by decide)

/-- C8, counterexample: rebinding a handle with an installed filter
when the attach fails (errno 13): the call does return the negative
error, but the old filter buffer has already been freed — the event log
records the free with no subsequent confirmed install — refuting the
claim that the old buffer is not freed until the new filter is
confirmed installed. -/
theorem C8_counterexample :
    psample_bind_group (some ⟨⟨9, some psample_group_filter⟩⟩)
        (some psample_group_filter) 2 ⟨none, true, some 13⟩
      = ⟨BindCtl.ret (-13),
         some ⟨⟨9, some (List.set psample_group_filter FILTER_GROUP_COMMAND
           ⟨0x15, 1, 0, ntohl 2⟩)⟩⟩, none,
         [BindEvent.detachedOldFilter, BindEvent.freedOldFilter]⟩ ∧
    BindEvent.freedOldFilter
        ∈ [BindEvent.detachedOldFilter, BindEvent.freedOldFilter] ∧
    BindEvent.attachedNewFilter
        ∉ [BindEvent.detachedOldFilter, BindEvent.freedOldFilter] := by
  refine ⟨by decide, by decide, by decide⟩

/-- C8, amended: a detach failure returns the underlying system error
negated, with the old filter retained and still attached; after a
successful detach the old buffer is freed immediately — *before* the
replacement is attached — so an attach failure returns the negative
error with the unattached new filter stored in the handle and nothing
attached kernel-side. -/
theorem C8_amended (h : PsampleHandle) (k : Option (List SockFilterInstr))
    (old : List SockFilterInstr) (g : Nat) (e1 e2 : Nat)
    (he1 : 0 < e1) (he2 : 0 < e2)
    (hold : h.sample_filter_fprog.filter = some old) :
    (psample_bind_group (some h) k g ⟨some e1, true, none⟩
        = ⟨BindCtl.ret (-(e1 : Int)), some h, k, []⟩ ∧
      (-(e1 : Int)) < 0) ∧
    (psample_bind_group (some h) k g ⟨none, true, some e2⟩
        = ⟨BindCtl.ret (-(e2 : Int)),
           some ⟨⟨psample_group_filter.length,
             some (List.set psample_group_filter FILTER_GROUP_COMMAND
               ⟨0x15, 1, 0, ntohl g⟩)⟩⟩, none,
           [BindEvent.detachedOldFilter, BindEvent.freedOldFilter]⟩ ∧
      (-(e2 : Int)) < 0) := by
  refine ⟨⟨?_, by omega⟩, ⟨?_, by omega⟩⟩
  · simp only [psample_bind_group, hold]
  · simp only [psample_bind_group, hold]
    rfl

/-- C8, witness with errno 1 for the detach failure and 13 for the
attach failure. -/
theorem C8_witness :
    (psample_bind_group (some ⟨⟨9, some psample_group_filter⟩⟩)
        (some psample_group_filter) 3 ⟨some 1, true, none⟩
        = ⟨BindCtl.ret (-(1 : Int)), some ⟨⟨9, some psample_group_filter⟩⟩,
           some psample_group_filter, []⟩ ∧
      (-(1 : Int)) < 0) ∧
    (psample_bind_group (some ⟨⟨9, some psample_group_filter⟩⟩)
        (some psample_group_filter) 3 ⟨none, true, some 13⟩
        = ⟨BindCtl.ret (-(13 : Int)),
           some ⟨⟨psample_group_filter.length,
             some (List.set psample_group_filter FILTER_GROUP_COMMAND
               ⟨0x15, 1, 0, ntohl 3⟩)⟩⟩, none,
           [BindEvent.detachedOldFilter, BindEvent.freedOldFilter]⟩ ∧
      (-(13 : Int)) < 0) :=
  C8_amended ⟨⟨9, some psample_group_filter⟩⟩ (some psample_group_filter)
    psample_group_filter 3 1 13 (by decide) (by decide) rfl

/-- C9: the claim says an allocation failure makes `psample_bind_group`
fail cleanly with no partial state.  The code does not check the
`malloc` result and immediately `memcpy`s into it: with a failing
allocator the run ends in the undefined-behaviour crash, after the old
filter has already been detached and freed (partial state). -/
theorem C9_alloc_failure_ub :
    psample_bind_group (some ⟨⟨9, some psample_group_filter⟩⟩)
        (some psample_group_filter) 7 ⟨none, false, none⟩
      = ⟨BindCtl.crash, some ⟨⟨9, none⟩⟩, none,
         [BindEvent.detachedOldFilter, BindEvent.freedOldFilter]⟩ := by
  decide

/-- C10: `psample_group_foreach` has no null-handle check and
immediately dereferences the handle — calling it with NULL is undefined
(the crash outcome) — whereas `psample_dispatch` and
`psample_bind_group` check and return `-ENOMEM` and `-EINVAL`
respectively. -/
theorem C10_null_handle_contract
    (gcb : PsampleGroup → CPtr → Int) (data : CPtr) (sendRes : Option Nat)
    (batch batch2 : List GenlMsg) (endc endc2 : TransportEnd) (stale : Nat)
    (msgCb : Option (AttrTable → Int)) (cfgCb : Option (Nat → AttrTable → Int))
    (block : Bool) (k : Option (List SockFilterInstr)) (g : Nat) (env : BindEnv) :
    psample_group_foreach none gcb data sendRes batch endc stale
        = (ForeachOutcome.crash, []) ∧
    psample_dispatch none msgCb cfgCb block batch2 endc2
        = (DispatchOutcome.ret (-(ENOMEM : Int)), []) ∧
    psample_bind_group none k g env
        = ⟨BindCtl.ret (-(EINVAL : Int)), none, k, []⟩ := by
  exact ⟨rfl, rfl, rfl⟩

end Psample
